import Mathlib

/-!
Shallow embedding of the prioritization-and-scheduling engine of the
Smart Todo List repository (frontend scheduling service, time-block modal
and AI-prioritization hook), together with theorems settling the spec
claims about it.

Time model: JavaScript `Date` values are embedded as integer milliseconds
since the Unix epoch.  The browser's local timezone is taken to be a fixed
zero offset with no daylight-saving jumps, so `setHours`, `setDate`,
`getHours`, `getDay`, `getMinutes` become plain integer arithmetic:
`setHours(getHours()+k)` is `+ k * hourMs`, `setDate(getDate()+k)` is
`+ k * dayMs`, `setHours(9,0,0,0)` is "start of day + 9 h", and
`setHours(23,59,59,999)` is "start of day + (dayMs - 1)".  The epoch day
(1970-01-01) was a Thursday, hence `getDay t = (t / dayMs + 4) % 7`.
-/

namespace Winner

def minuteMs : Int := 60000

def hourMs : Int := 3600000

def dayMs : Int := 86400000

/-- Start of the (fixed-offset) local day containing instant `t`. -/
def dayStart (t : Int) : Int := t - t % dayMs

/-- JS `Date.prototype.getHours` in the fixed-offset model. -/
def getHours (t : Int) : Int := t / hourMs % 24

/-- JS `Date.prototype.getMinutes` in the fixed-offset model. -/
def getMinutes (t : Int) : Int := t / minuteMs % 60

/-- JS `Date.prototype.getDay` (0 = Sunday, 6 = Saturday). -/
def getDay (t : Int) : Int := (t / dayMs + 4) % 7

/-- JS `d.setHours(9, 0, 0, 0)`. -/
def setHours9 (t : Int) : Int := dayStart t + 9 * hourMs

/-- JS `d.setHours(23, 59, 59, 999)`. -/
def endOfDay (t : Int) : Int := dayStart t + (dayMs - 1)

/-- The task fields read by the scheduling service (`aiSchedulingService`).
`priority` is kept as the raw string the code compares against, `deadline`
and `estimated_duration` are `Option` for JS `undefined`/`null`. -/
structure Task where
  id : Nat
  title : String
  priority : String
  deadline : Option Int
  estimated_duration : Option Int
deriving DecidableEq, Repr

/-- `taskData.estimated_duration ? parseInt(taskData.estimated_duration) : 60`.
JS truthiness: an absent value and the number `0` are both falsy, so both
yield the 60-minute default. -/
def durationOf (t : Task) : Int :=
  match t.estimated_duration with
  | none => 60
  | some d => if d = 0 then 60 else d

/-- Priority offset step of `generateLocalSchedulingSuggestions`
(lines 90-103): high → now+1h, medium → now+24h, anything else
(including `urgent` and `low`) → now+72h. -/
def priorityStart (t : Task) (now : Int) : Int :=
  if t.priority = "high" then now + 1 * hourMs
  else if t.priority = "medium" then now + 24 * hourMs
  else now + 72 * hourMs

/-- Deadline adjustment step (lines 105-128): the deadline is pushed to
23:59:59.999 of its day; when it lies before the computed start, the start
is pulled back 24/48/72 h before the deadline depending on priority. -/
def deadlineAdjust (t : Task) (s : Int) : Int :=
  match t.deadline with
  | none => s
  | some dl0 =>
      let dl := endOfDay dl0
      if dl < s then
        if t.priority = "high" then dl - 24 * hourMs
        else if t.priority = "medium" then dl - 48 * hourMs
        else dl - 72 * hourMs
      else s

/-- Working-hours adjustment of the start (lines 130-137): before 9 AM →
9 AM same day; at or after 5 PM → 9 AM next day. -/
def workingHoursStart (s : Int) : Int :=
  if getHours s < 9 then setHours9 s
  else if 17 ≤ getHours s then setHours9 (s + dayMs)
  else s

/-- 5-PM overflow check on the end time (lines 143-155): an end at 17:00-17:30
is kept; any other end at hour ≥ 17 moves the whole block to 9 AM next day. -/
def afterEndCheck (s e dur : Int) : Int × Int :=
  if 17 ≤ getHours e then
    if getHours e = 17 ∧ getMinutes e ≤ 30 then (s, e)
    else
      let s2 := setHours9 (s + dayMs)
      (s2, s2 + dur * minuteMs)
  else (s, e)

/-- Weekend adjustment (lines 157-167): Sunday start moves one day forward,
Saturday start moves two days forward; the end is recomputed from the new
start in both cases. -/
def weekendAdjust (s e dur : Int) : Int × Int :=
  if getDay s = 0 then (s + dayMs, s + dayMs + dur * minuteMs)
  else if getDay s = 6 then (s + 2 * dayMs, s + 2 * dayMs + dur * minuteMs)
  else (s, e)

/-- Result shape of `generateLocalSchedulingSuggestions`. -/
structure Suggestion where
  suggested_start_time : Int
  suggested_end_time : Int
  reasoning : String
deriving DecidableEq, Repr

/-- `generateLocalSchedulingSuggestions(taskData, startDate, endDate)`
(part_005 lines 78-175), with the implicit `new Date()` made an explicit
`now` parameter.  The JS body never reads `startDate`/`endDate`; they are
kept in the signature exactly as in the source. -/
def generateLocalSchedulingSuggestions (taskData : Task)
    (startDate endDate : Option Int) (now : Int) : Suggestion :=
  let dur := durationOf taskData
  let s1 := priorityStart taskData now
  let s2 := deadlineAdjust taskData s1
  let s3 := workingHoursStart s2
  let e3 := s3 + dur * minuteMs
  let se4 := afterEndCheck s3 e3 dur
  let se5 := weekendAdjust se4.1 se4.2 dur
  { suggested_start_time := se5.1
    suggested_end_time := se5.2
    reasoning := "Scheduling based on task priority (" ++ taskData.priority ++
      ") and estimated duration (" ++ toString dur ++ " minutes)." }

/-- Stable insertion into a list, modelling how an ECMAScript stable
`Array.prototype.sort` places an element relative to a sorted suffix: an
element goes before the first entry it compares `≤ 0` against (`NaN`
comparator results count as `+0` per the `SortCompare` abstract operation,
which `cmp` already encodes). -/
def jsInsert (cmp : α → α → Int) (x : α) : List α → List α
  | [] => [x]
  | y :: ys => if cmp x y ≤ 0 then x :: y :: ys else y :: jsInsert cmp x ys

/-- Stable sort modelling ECMAScript `Array.prototype.sort(cmp)`. -/
def jsSort (cmp : α → α → Int) : List α → List α
  | [] => []
  | x :: xs => jsInsert cmp x (jsSort cmp xs)

/-- `const priorityOrder = { high: 3, medium: 2, low: 1 }` (line 266):
a lookup miss (notably for `urgent`) yields JS `undefined`. -/
def priorityOrder : String → Option Int
  | "high" => some 3
  | "medium" => some 2
  | "low" => some 1
  | _ => none

/-- The comparator of the fallback sort in `getOptimizedSchedule`
(lines 264-280).  When either priority is missing from `priorityOrder`,
`priorityOrder[b] - priorityOrder[a]` is `NaN`, `NaN !== 0` holds, and the
returned `NaN` is mapped to `+0` by the `SortCompare` abstract operation —
hence the catch-all `0` branch. -/
def taskCompare (a b : Task) : Int :=
  match priorityOrder a.priority, priorityOrder b.priority with
  | some pa, some pb =>
      if pb - pa ≠ 0 then pb - pa
      else
        match a.deadline, b.deadline with
        | some da, some db => da - db
        | some _, none => -1
        | none, some _ => 1
        | none, none => 0
  | _, _ => 0

/-- One entry of the fallback schedule built in `getOptimizedSchedule`
(lines 283-293). -/
structure ScheduleEntry where
  task_id : Nat
  task_title : String
  suggested_start_time : Int
  suggested_end_time : Int
  priority : String
  reasoning : String
deriving DecidableEq, Repr

/-- The fallback branch of `getOptimizedSchedule` (lines 260-295): sort by
`taskCompare`, then generate one local suggestion per task.  In the JS loop
`generateLocalSchedulingSuggestions(task)` is called with `startDate` and
`endDate` left `undefined`. -/
def getOptimizedScheduleLocal (tasks : List Task) (now : Int) : List ScheduleEntry :=
  (jsSort taskCompare tasks).map fun t =>
    let s := generateLocalSchedulingSuggestions t none none now
    { task_id := t.id
      task_title := t.title
      suggested_start_time := s.suggested_start_time
      suggested_end_time := s.suggested_end_time
      priority := t.priority
      reasoning := s.reasoning }

/-- `getSchedulingSuggestions` (lines 13-69): the whole remote path
(calendar fetches, HTTP call, JSON decoding) is abstracted as one
`Except`-valued argument; any failure in it is caught and answered with the
local fallback, so the caller-visible result is again `Except`-typed to
show that no error proposition escapes. -/
def getSchedulingSuggestions (remote : Except String Suggestion)
    (taskData : Task) (startDate endDate : Option Int) (now : Int) :
    Except String Suggestion :=
  match remote with
  | .ok data => .ok data
  | .error _ => .ok (generateLocalSchedulingSuggestions taskData startDate endDate now)

/-- `getOptimizedSchedule` (lines 229-297): the remote call (including the
token lookup that may `throw` inside the `try`) is abstracted as an
`Except`-valued argument; the `catch` block answers with the local fallback
schedule. -/
def getOptimizedSchedule (remote : Except String (List ScheduleEntry))
    (tasks : List Task) (now : Int) : Except String (List ScheduleEntry) :=
  match remote with
  | .ok data => .ok data
  | .error _ => .ok (getOptimizedScheduleLocal tasks now)

/-- The form state of `TimeBlockModal` that `handleSubmit` validates
(`task_id` is the raw select value, empty string when nothing selected;
times are `Date` values, i.e. instants). -/
structure TimeBlockForm where
  task_id : String
  start_time : Int
  end_time : Int
  status : String
  notes : String
deriving DecidableEq, Repr

/-- Observable outcome of `handleSubmit`: either a destructive-toast
validation error with no request issued, or exactly one create/update
request carrying the form data. -/
inductive SubmitAction where
  | validationError (msg : String)
  | createRequest (fd : TimeBlockForm)
  | updateRequest (id : Nat) (fd : TimeBlockForm)
deriving DecidableEq, Repr

/-- Whether a `handleSubmit` outcome issues a create/update request. -/
def SubmitAction.issuesRequest : SubmitAction → Bool
  | .validationError _ => false
  | .createRequest _ => true
  | .updateRequest _ _ => true

/-- `handleSubmit` of `TimeBlockModal.jsx` (lines 81-138): missing task →
error toast and early return; `start_time >= end_time` → error toast and
early return; otherwise one `createTimeBlock`/`updateTimeBlock` request. -/
def handleSubmit (isCreating : Bool) (timeBlockId : Nat)
    (formData : TimeBlockForm) : SubmitAction :=
  if formData.task_id = "" then
    .validationError "Please select a task"
  else if formData.end_time ≤ formData.start_time then
    .validationError "End time must be after start time"
  else if isCreating then
    .createRequest formData
  else
    .updateRequest timeBlockId formData

/-- One entry of the hook state `prioritizedTasks` in
`useTaskPrioritization.js` (as delivered by the prioritization API). -/
structure PrioritizedTask where
  id : Nat
  ai_priority_score : Int
  factors : Option Int
deriving DecidableEq, Repr

/-- A task as seen by `applyAIPrioritization` before enhancement; fields
other than `id` are opaque payload carried through the sort. -/
structure ClientTask where
  id : Nat
  title : String
deriving DecidableEq, Repr

/-- A task after the enhancement step of `applyAIPrioritization`. -/
structure EnhancedTask where
  base : ClientTask
  aiPriorityScore : Int
  aiPriorityFactors : Option Int
deriving DecidableEq, Repr

/-- The `priorityMap` object built in `applyAIPrioritization`
(lines 82-88): keyed by task id, later entries overwrite earlier ones,
hence the lookup searches the reversed list. -/
def priorityLookup (pts : List PrioritizedTask) (id : Nat) : Option PrioritizedTask :=
  pts.reverse.find? fun p => p.id == id

/-- The JS argument of `applyAIPrioritization` may be any value; the code
distinguishes "not an array / null" from an actual array of tasks. -/
inductive TasksInput where
  | notArray
  | arr (tasks : List ClientTask)
deriving DecidableEq, Repr

/-- Result of `applyAIPrioritization`: either the input value returned
unchanged, or the enhanced, sorted array. -/
inductive ApplyResult where
  | unchanged (input : TasksInput)
  | enhanced (tasks : List EnhancedTask)
deriving DecidableEq, Repr

/-- Descending-score comparator `(a, b) => (b.aiPriorityScore || 0) - (a.aiPriorityScore || 0)`
(lines 101-103); scores are always numbers after enhancement. -/
def scoreCompare (a b : EnhancedTask) : Int :=
  b.aiPriorityScore - a.aiPriorityScore

/-- `applyAIPrioritization` of `useTaskPrioritization.js` (lines 77-104):
guard non-arrays, empty arrays, disabled AI and empty prioritized list;
otherwise attach `aiPriorityScore` (`priorityInfo?.aiPriorityScore || 0`)
and `aiPriorityFactors` (`priorityInfo?.factors || null`) to each task and
stable-sort by descending score. -/
def applyAIPrioritization (aiPrioritizationEnabled : Bool)
    (prioritizedTasks : List PrioritizedTask) : TasksInput → ApplyResult
  | .notArray => .unchanged .notArray
  | .arr ts =>
      if ts.length = 0 then .unchanged (.arr ts)
      else if aiPrioritizationEnabled = false ∨ prioritizedTasks.length = 0 then
        .unchanged (.arr ts)
      else
        let enhancedTasks := ts.map fun t =>
          { base := t
            aiPriorityScore :=
              match priorityLookup prioritizedTasks t.id with
              | some p => p.ai_priority_score
              | none => 0
            aiPriorityFactors :=
              match priorityLookup prioritizedTasks t.id with
              | some p => p.factors
              | none => none : EnhancedTask }
        .enhanced (jsSort scoreCompare enhancedTasks)

/-! ### Helper lemmas -/

theorem getHours_setHours9 (t : Int) : getHours (setHours9 t) = 9 := by
  unfold getHours setHours9 dayStart hourMs dayMs
  omega

theorem getHours_add_dayMs (t : Int) : getHours (t + dayMs) = getHours t := by
  unfold getHours hourMs dayMs
  omega

theorem getHours_add_two_dayMs (t : Int) : getHours (t + 2 * dayMs) = getHours t := by
  unfold getHours hourMs dayMs
  omega

theorem getDay_add_dayMs (t : Int) (h : getDay t = 0) : getDay (t + dayMs) = 1 := by
  unfold getDay dayMs at *
  omega

theorem getDay_add_two_dayMs (t : Int) (h : getDay t = 6) : getDay (t + 2 * dayMs) = 1 := by
  unfold getDay dayMs at *
  omega

theorem workingHoursStart_bounds (s : Int) :
    9 ≤ getHours (workingHoursStart s) ∧ getHours (workingHoursStart s) < 17 := by
  unfold workingHoursStart
  split_ifs with h1 h2
  · rw [getHours_setHours9]; omega
  · rw [getHours_setHours9]; omega
  · omega

theorem afterEndCheck_fst (s e d : Int) :
    (afterEndCheck s e d).1 = s ∨ (afterEndCheck s e d).1 = setHours9 (s + dayMs) := by
  unfold afterEndCheck
  split_ifs <;> simp

theorem afterEndCheck_snd (s d : Int) :
    (afterEndCheck s (s + d * minuteMs) d).2 =
      (afterEndCheck s (s + d * minuteMs) d).1 + d * minuteMs := by
  unfold afterEndCheck
  split_ifs <;> simp

theorem weekendAdjust_fst_cases (s e d : Int) :
    (weekendAdjust s e d).1 = s ∨ (weekendAdjust s e d).1 = s + dayMs ∨
      (weekendAdjust s e d).1 = s + 2 * dayMs := by
  unfold weekendAdjust
  split_ifs <;> simp

theorem weekendAdjust_snd (s e d : Int) (h : e = s + d * minuteMs) :
    (weekendAdjust s e d).2 = (weekendAdjust s e d).1 + d * minuteMs := by
  unfold weekendAdjust
  split_ifs <;> simp [h]

theorem weekendAdjust_day (s e d : Int) :
    getDay (weekendAdjust s e d).1 ≠ 0 ∧ getDay (weekendAdjust s e d).1 ≠ 6 := by
  unfold weekendAdjust
  split_ifs with h1 h2
  · simp only
    rw [getDay_add_dayMs s h1]
    omega
  · simp only
    rw [getDay_add_two_dayMs s h2]
    omega
  · simp only
    exact ⟨h1, h2⟩

theorem weekendAdjust_hours (s e d : Int) :
    getHours (weekendAdjust s e d).1 = getHours s := by
  rcases weekendAdjust_fst_cases s e d with h | h | h
  · rw [h]
  · rw [h, getHours_add_dayMs]
  · rw [h, getHours_add_two_dayMs]

theorem suggestion_start_eq (t : Task) (sd ed : Option Int) (now : Int) :
    (generateLocalSchedulingSuggestions t sd ed now).suggested_start_time =
      (weekendAdjust
        (afterEndCheck (workingHoursStart (deadlineAdjust t (priorityStart t now)))
          (workingHoursStart (deadlineAdjust t (priorityStart t now)) + durationOf t * minuteMs)
          (durationOf t)).1
        (afterEndCheck (workingHoursStart (deadlineAdjust t (priorityStart t now)))
          (workingHoursStart (deadlineAdjust t (priorityStart t now)) + durationOf t * minuteMs)
          (durationOf t)).2
        (durationOf t)).1 := rfl

theorem suggestion_end_eq (t : Task) (sd ed : Option Int) (now : Int) :
    (generateLocalSchedulingSuggestions t sd ed now).suggested_end_time =
      (weekendAdjust
        (afterEndCheck (workingHoursStart (deadlineAdjust t (priorityStart t now)))
          (workingHoursStart (deadlineAdjust t (priorityStart t now)) + durationOf t * minuteMs)
          (durationOf t)).1
        (afterEndCheck (workingHoursStart (deadlineAdjust t (priorityStart t now)))
          (workingHoursStart (deadlineAdjust t (priorityStart t now)) + durationOf t * minuteMs)
          (durationOf t)).2
        (durationOf t)).2 := rfl

theorem jsInsert_perm (cmp : α → α → Int) (x : α) (l : List α) :
    (jsInsert cmp x l).Perm (x :: l) := by
  induction l with
  | nil => exact List.Perm.refl _
  | cons y ys ih =>
      unfold jsInsert
      split_ifs
      · exact List.Perm.refl _
      · exact (List.Perm.cons y ih).trans (List.Perm.swap x y ys)

theorem jsSort_perm (cmp : α → α → Int) (l : List α) : (jsSort cmp l).Perm l := by
  induction l with
  | nil => exact List.Perm.refl _
  | cons x xs ih => exact (jsInsert_perm cmp x (jsSort cmp xs)).trans (List.Perm.cons x ih)

theorem jsSort_length (cmp : α → α → Int) (l : List α) :
    (jsSort cmp l).length = l.length :=
  (jsSort_perm cmp l).length_eq

theorem mem_jsInsert {cmp : α → α → Int} {x z : α} {l : List α}
    (h : z ∈ jsInsert cmp x l) : z = x ∨ z ∈ l := by
  have := (jsInsert_perm cmp x l).mem_iff.mp h
  simpa using this

theorem pairwise_jsInsert (x : EnhancedTask) (l : List EnhancedTask)
    (h : l.Pairwise fun u v => v.aiPriorityScore ≤ u.aiPriorityScore) :
    (jsInsert scoreCompare x l).Pairwise fun u v => v.aiPriorityScore ≤ u.aiPriorityScore := by
  induction l with
  | nil => simp [jsInsert]
  | cons y ys ih =>
      rw [List.pairwise_cons] at h
      obtain ⟨hy, hys⟩ := h
      unfold jsInsert
      split_ifs with hc
      · rw [List.pairwise_cons]
        refine ⟨?_, ?_⟩
        · intro z hz
          unfold scoreCompare at hc
          rcases List.mem_cons.mp hz with rfl | hz'
          · omega
          · have := hy z hz'
            omega
        · rw [List.pairwise_cons]
          exact ⟨hy, hys⟩
      · rw [List.pairwise_cons]
        refine ⟨?_, ih hys⟩
        intro z hz
        unfold scoreCompare at hc
        rcases mem_jsInsert hz with rfl | hz'
        · omega
        · exact hy z hz'

theorem pairwise_jsSort (l : List EnhancedTask) :
    (jsSort scoreCompare l).Pairwise fun u v => v.aiPriorityScore ≤ u.aiPriorityScore := by
  induction l with
  | nil => simp [jsSort]
  | cons x xs ih => exact pairwise_jsInsert x (jsSort scoreCompare xs) ih

/-! ### Claim theorems -/

/-- C1: refuted as stated.  In one optimization run over two tasks that are
both `low` priority with no deadline and default duration, started at
`now` = 2024-01-01 Mon 10:00 UTC, the fallback of `getOptimizedSchedule`
returns two schedule entries with the *identical* interval
2024-01-04 Thu 10:00–11:00 — the first assignment does not become occupied
for the later task, and the two entries overlap in time. -/
theorem C1_counterexample :
    (getOptimizedScheduleLocal
        [⟨1, "t1", "low", none, none⟩, ⟨2, "t2", "low", none, none⟩] 1704103200000).map
        (fun e => (e.suggested_start_time, e.suggested_end_time)) =
      [(1704362400000, 1704366000000), (1704362400000, 1704366000000)] ∧
    (1704362400000 : Int) < 1704366000000 := by
  decide

/-- C1 (amended): assignments in one run are computed independently of each
other, so they may overlap; in particular any two tasks that agree on
`priority`, `deadline` and `estimated_duration` receive the identical
suggested interval from `generateLocalSchedulingSuggestions`. -/
theorem C1_amended (t1 t2 : Task) (sd ed : Option Int) (now : Int)
    (hp : t1.priority = t2.priority) (hd : t1.deadline = t2.deadline)
    (he : t1.estimated_duration = t2.estimated_duration) :
    (generateLocalSchedulingSuggestions t1 sd ed now).suggested_start_time =
      (generateLocalSchedulingSuggestions t2 sd ed now).suggested_start_time ∧
    (generateLocalSchedulingSuggestions t1 sd ed now).suggested_end_time =
      (generateLocalSchedulingSuggestions t2 sd ed now).suggested_end_time := by
  have hdur : durationOf t1 = durationOf t2 := by
    unfold durationOf
    rw [he]
  have hps : priorityStart t1 now = priorityStart t2 now := by
    unfold priorityStart
    rw [hp]
  have hda : ∀ s : Int, deadlineAdjust t1 s = deadlineAdjust t2 s := by
    intro s
    unfold deadlineAdjust
    rw [hd, hp]
  rw [suggestion_start_eq, suggestion_start_eq, suggestion_end_eq, suggestion_end_eq,
    hdur, hps, hda]
  exact ⟨rfl, rfl⟩

/-- Witness for `C1_amended` at two concrete equal-field tasks. -/
theorem C1_amended_witness :
    (generateLocalSchedulingSuggestions ⟨1, "t1", "low", none, none⟩ none none
        1704103200000).suggested_start_time =
      (generateLocalSchedulingSuggestions ⟨2, "t2", "low", none, none⟩ none none
        1704103200000).suggested_start_time ∧
    (generateLocalSchedulingSuggestions ⟨1, "t1", "low", none, none⟩ none none
        1704103200000).suggested_end_time =
      (generateLocalSchedulingSuggestions ⟨2, "t2", "low", none, none⟩ none none
        1704103200000).suggested_end_time :=
  C1_amended ⟨1, "t1", "low", none, none⟩ ⟨2, "t2", "low", none, none⟩ none none
    1704103200000 rfl rfl rfl

/-- C2: refuted as stated.  A `high`-priority task whose deadline day ended
at 2023-12-31 Sun 23:59:59.999 UTC, optimized at `now` = 2024-01-01 Mon
10:00 UTC, is not placed in any `unschedulable` output (the fallback has
none and returns one schedule entry for it); its suggested interval is
2024-01-01 Mon 09:00–10:00, whose end lies strictly after the deadline. -/
theorem C2_counterexample :
    (getOptimizedScheduleLocal [⟨3, "t3", "high", some 1703980800000, none⟩] 1704103200000).map
        (fun e => (e.task_id, e.suggested_start_time, e.suggested_end_time)) =
      [(3, 1704099600000, 1704103200000)] ∧
    endOfDay 1703980800000 < 1704103200000 := by
  decide

/-- C2 (amended): the fallback optimizer never marks a task unschedulable —
its output has no such component and every input task receives exactly one
schedule entry; a task whose deadline precedes the computed start may
therefore receive an assignment ending after its deadline. -/
theorem C2_amended (tasks : List Task) (now : Int) :
    (getOptimizedScheduleLocal tasks now).length = tasks.length := by
  unfold getOptimizedScheduleLocal
  rw [List.length_map]
  exact jsSort_length taskCompare tasks

/-- C3: refuted as stated.  For a `high`-priority task of 90 minutes at
`now` = 2024-01-01 Mon 15:00 UTC the suggested interval is Mon
16:00–17:30: its end falls at 17:30, strictly outside the 09:00–17:00
working-hours window (the code explicitly keeps ends up to 17:30). -/
theorem C3_counterexample :
    (generateLocalSchedulingSuggestions ⟨4, "t4", "high", none, some 90⟩ none none
        1704121200000).suggested_start_time = 1704124800000 ∧
    (generateLocalSchedulingSuggestions ⟨4, "t4", "high", none, some 90⟩ none none
        1704121200000).suggested_end_time = 1704130200000 ∧
    getHours 1704130200000 = 17 ∧ getMinutes 1704130200000 = 30 ∧
    dayStart 1704130200000 + 17 * hourMs < 1704130200000 := by
  decide

/-- C3 (amended): only the suggested *start* is guaranteed to lie within
working hours and on a weekday: for every task, window and `now`, the
suggested start of `generateLocalSchedulingSuggestions` has hour in
`[9, 17)` and its day of week is neither Sunday nor Saturday; the suggested
end may fall outside working hours. -/
theorem C3_amended (t : Task) (sd ed : Option Int) (now : Int) :
    9 ≤ getHours (generateLocalSchedulingSuggestions t sd ed now).suggested_start_time ∧
    getHours (generateLocalSchedulingSuggestions t sd ed now).suggested_start_time < 17 ∧
    getDay (generateLocalSchedulingSuggestions t sd ed now).suggested_start_time ≠ 0 ∧
    getDay (generateLocalSchedulingSuggestions t sd ed now).suggested_start_time ≠ 6 := by
  rw [suggestion_start_eq]
  set s3 := workingHoursStart (deadlineAdjust t (priorityStart t now)) with hs3
  set p := afterEndCheck s3 (s3 + durationOf t * minuteMs) (durationOf t) with hp
  have h3 : 9 ≤ getHours s3 ∧ getHours s3 < 17 :=
    workingHoursStart_bounds (deadlineAdjust t (priorityStart t now))
  have h4 : 9 ≤ getHours p.1 ∧ getHours p.1 < 17 := by
    rcases afterEndCheck_fst s3 (s3 + durationOf t * minuteMs) (durationOf t) with h | h
    · rw [hp, h]; exact h3
    · rw [hp, h, getHours_setHours9]; omega
  have hh := weekendAdjust_hours p.1 p.2 (durationOf t)
  have hd := weekendAdjust_day p.1 p.2 (durationOf t)
  rw [hh]
  exact ⟨h4.1, h4.2, hd.1, hd.2⟩

/-- C4: evaluation at the failing input.  Task B (id 1, priority `low`, no
deadline) and task A (id 2, priority `urgent`, deadline 2024-01-02) tie
under the fallback comparator of `getOptimizedSchedule` in both argument
orders — `priorityOrder` has no `urgent` key, the subtraction is `NaN`,
and `SortCompare` maps it to `+0` — so the run at `now` = 2024-01-01 Mon
10:00 UTC outputs B before A, contradicting the claimed
urgent-before-low processing order. -/
theorem C4_code_eval :
    taskCompare ⟨1, "B", "low", none, some 60⟩ ⟨2, "A", "urgent", some 1704153600000, some 60⟩ = 0 ∧
    taskCompare ⟨2, "A", "urgent", some 1704153600000, some 60⟩ ⟨1, "B", "low", none, some 60⟩ = 0 ∧
    (getOptimizedScheduleLocal
        [⟨1, "B", "low", none, some 60⟩, ⟨2, "A", "urgent", some 1704153600000, some 60⟩]
        1704103200000).map (fun e => e.task_id) = [1, 2] := by
  decide

/-- C5: both entry points absorb any remote failure: the result is always
`.ok`, and on a remote error it is exactly the locally generated
suggestion/schedule — the error is never propagated to the caller. -/
theorem C5_fallback :
    (∀ (remote : Except String Suggestion) (taskData : Task) (sd ed : Option Int) (now : Int),
      ∃ r, getSchedulingSuggestions remote taskData sd ed now = .ok r) ∧
    (∀ (err : String) (taskData : Task) (sd ed : Option Int) (now : Int),
      getSchedulingSuggestions (.error err) taskData sd ed now =
        .ok (generateLocalSchedulingSuggestions taskData sd ed now)) ∧
    (∀ (remote : Except String (List ScheduleEntry)) (tasks : List Task) (now : Int),
      ∃ r, getOptimizedSchedule remote tasks now = .ok r) ∧
    (∀ (err : String) (tasks : List Task) (now : Int),
      getOptimizedSchedule (.error err) tasks now = .ok (getOptimizedScheduleLocal tasks now)) := by
  refine ⟨?_, ?_, ?_, ?_⟩
  · intro remote taskData sd ed now
    cases remote with
    | ok d => exact ⟨d, rfl⟩
    | error e => exact ⟨generateLocalSchedulingSuggestions taskData sd ed now, rfl⟩
  · intro err taskData sd ed now
    rfl
  · intro remote tasks now
    cases remote with
    | ok d => exact ⟨d, rfl⟩
    | error e => exact ⟨getOptimizedScheduleLocal tasks now, rfl⟩
  · intro err tasks now
    rfl

/-- C6: the local optimizer is deterministic — identical task lists and an
identical clock value `now` yield identical schedules. -/
theorem C6_deterministic (tasks1 tasks2 : List Task) (now1 now2 : Int)
    (ht : tasks1 = tasks2) (hn : now1 = now2) :
    getOptimizedScheduleLocal tasks1 now1 = getOptimizedScheduleLocal tasks2 now2 := by
  rw [ht, hn]

/-- Witness for `C6_deterministic` at a concrete run. -/
theorem C6_deterministic_witness :
    getOptimizedScheduleLocal [⟨1, "t1", "low", none, none⟩] 1704103200000 =
      getOptimizedScheduleLocal [⟨1, "t1", "low", none, none⟩] 1704103200000 :=
  C6_deterministic [⟨1, "t1", "low", none, none⟩] [⟨1, "t1", "low", none, none⟩]
    1704103200000 1704103200000 rfl rfl

/-- C7: refuted as stated.  A task with `estimated_duration` *present* and
equal to `0` is falsy in JS, so the 60-minute default applies: the
suggested interval has length 60 minutes, not the present duration `0`. -/
theorem C7_counterexample :
    (⟨5, "t5", "low", none, some 0⟩ : Task).estimated_duration = some 0 ∧
    (generateLocalSchedulingSuggestions ⟨5, "t5", "low", none, some 0⟩ none none
        1704103200000).suggested_end_time -
      (generateLocalSchedulingSuggestions ⟨5, "t5", "low", none, some 0⟩ none none
        1704103200000).suggested_start_time = 60 * minuteMs ∧
    (60 : Int) * minuteMs ≠ 0 * minuteMs := by
  decide

/-- C7 (amended): the suggested interval always has length
`durationOf t` minutes, where an absent *or zero* `estimated_duration`
defaults to 60 and any other present value is used as given. -/
theorem C7_amended (t : Task) (sd ed : Option Int) (now : Int) :
    (generateLocalSchedulingSuggestions t sd ed now).suggested_end_time =
      (generateLocalSchedulingSuggestions t sd ed now).suggested_start_time +
        durationOf t * minuteMs ∧
    (t.estimated_duration = none → durationOf t = 60) ∧
    (t.estimated_duration = some 0 → durationOf t = 60) ∧
    (∀ d, t.estimated_duration = some d → d ≠ 0 → durationOf t = d) := by
  refine ⟨?_, ?_, ?_, ?_⟩
  · rw [suggestion_start_eq, suggestion_end_eq]
    exact weekendAdjust_snd _ _ _
      (afterEndCheck_snd (workingHoursStart (deadlineAdjust t (priorityStart t now))) (durationOf t))
  · intro h
    unfold durationOf
    rw [h]
  · intro h
    unfold durationOf
    rw [h]
    simp
  · intro d h hd
    unfold durationOf
    rw [h]
    simp [hd]

/-- Witness for `C7_amended` at a concrete task with a present nonzero
duration of 90 minutes. -/
theorem C7_amended_witness :
    (generateLocalSchedulingSuggestions ⟨6, "t6", "medium", none, some 90⟩ none none
        1704103200000).suggested_end_time =
      (generateLocalSchedulingSuggestions ⟨6, "t6", "medium", none, some 90⟩ none none
        1704103200000).suggested_start_time +
        durationOf ⟨6, "t6", "medium", none, some 90⟩ * minuteMs ∧
    durationOf ⟨6, "t6", "medium", none, some 90⟩ = 90 :=
  ⟨(C7_amended ⟨6, "t6", "medium", none, some 90⟩ none none 1704103200000).1,
   (C7_amended ⟨6, "t6", "medium", none, some 90⟩ none none 1704103200000).2.2.2 90 rfl
     (by decide)⟩

/-- C8: `handleSubmit` rejects a missing task selection or an end time not
strictly after the start time with a validation error and issues no
create/update request; conversely every issued request carries a form with
`start_time < end_time`, preserving the persisted-block invariant. -/
theorem C8_validation :
    (∀ (isCreating : Bool) (tbId : Nat) (fd : TimeBlockForm),
      fd.task_id = "" ∨ fd.end_time ≤ fd.start_time →
      (handleSubmit isCreating tbId fd).issuesRequest = false) ∧
    (∀ (isCreating : Bool) (tbId : Nat) (fd : TimeBlockForm),
      (handleSubmit isCreating tbId fd).issuesRequest = true →
      fd.task_id ≠ "" ∧ fd.start_time < fd.end_time) := by
  constructor
  · intro isCreating tbId fd h
    unfold handleSubmit
    split_ifs with h1 h2
    · rfl
    · rfl
    · rcases h with h | h
      · exact absurd h h1
      · exact absurd h h2
    · rcases h with h | h
      · exact absurd h h1
      · exact absurd h h2
  · intro isCreating tbId fd h
    unfold handleSubmit at h
    split_ifs at h with h1 h2 h3
    · exact Bool.noConfusion h
    · exact Bool.noConfusion h
    · exact ⟨h1, by omega⟩
    · exact ⟨h1, by omega⟩

/-- Witness for `C8_validation`: an empty task selection is rejected, and a
concrete valid form issues a request with `start_time < end_time`. -/
theorem C8_validation_witness :
    (handleSubmit true 0 ⟨"", 0, 100, "scheduled", ""⟩).issuesRequest = false ∧
    ((⟨"7", 0, 100, "scheduled", ""⟩ : TimeBlockForm).task_id ≠ "" ∧
      ((⟨"7", 0, 100, "scheduled", ""⟩ : TimeBlockForm).start_time <
        (⟨"7", 0, 100, "scheduled", ""⟩ : TimeBlockForm).end_time)) :=
  ⟨C8_validation.1 true 0 ⟨"", 0, 100, "scheduled", ""⟩ (Or.inl rfl),
   C8_validation.2 true 0 ⟨"7", 0, 100, "scheduled", ""⟩ (by decide)⟩

/-- C9: `applyAIPrioritization` returns the input unchanged when it is not
an array, is empty, AI prioritization is disabled, or no prioritized tasks
are loaded; otherwise the enhanced output is a permutation of the input
(under the `base` projection), sorted in non-increasing AI priority score,
and any task whose id is absent from the prioritized list carries score 0. -/
theorem C9_sort_spec :
    (∀ (en : Bool) (pts : List PrioritizedTask),
      applyAIPrioritization en pts .notArray = .unchanged .notArray) ∧
    (∀ (en : Bool) (pts : List PrioritizedTask),
      applyAIPrioritization en pts (.arr []) = .unchanged (.arr [])) ∧
    (∀ (pts : List PrioritizedTask) (ts : List ClientTask),
      applyAIPrioritization false pts (.arr ts) = .unchanged (.arr ts)) ∧
    (∀ (en : Bool) (ts : List ClientTask),
      applyAIPrioritization en [] (.arr ts) = .unchanged (.arr ts)) ∧
    (∀ (en : Bool) (pts : List PrioritizedTask) (ts : List ClientTask) (l : List EnhancedTask),
      applyAIPrioritization en pts (.arr ts) = .enhanced l →
      (l.map EnhancedTask.base).Perm ts ∧
      l.Pairwise (fun u v => v.aiPriorityScore ≤ u.aiPriorityScore) ∧
      (∀ e ∈ l, priorityLookup pts e.base.id = none → e.aiPriorityScore = 0)) := by
  refine ⟨fun en pts => rfl, fun en pts => rfl, ?_, ?_, ?_⟩
  · intro pts ts
    simp only [applyAIPrioritization]
    split_ifs with h1 h2
    · rfl
    · rfl
    · simp at h2
  · intro en ts
    simp only [applyAIPrioritization]
    split_ifs with h1 h2
    · rfl
    · rfl
    · simp at h2
  · intro en pts ts l h
    simp only [applyAIPrioritization] at h
    split_ifs at h with h1 h2
    set enh := ts.map (fun t =>
      ({ base := t
         aiPriorityScore :=
            match priorityLookup pts t.id with
            | some p => p.ai_priority_score
            | none => 0
         aiPriorityFactors :=
            match priorityLookup pts t.id with
            | some p => p.factors
            | none => none } : EnhancedTask)) with henh
    have hl : l = jsSort scoreCompare enh := by
      injection h with h'
      exact h'.symm
    subst hl
    refine ⟨?_, pairwise_jsSort enh, ?_⟩
    · have hperm : ((jsSort scoreCompare enh).map EnhancedTask.base).Perm
          (enh.map EnhancedTask.base) := (jsSort_perm scoreCompare enh).map _
      have hbase : enh.map EnhancedTask.base = ts := by
        rw [henh, List.map_map]
        exact List.map_id'' (fun x => rfl) ts
      rw [hbase] at hperm
      exact hperm
    · intro e he hnone
      have he' : e ∈ enh := ((jsSort_perm scoreCompare enh).mem_iff).mp he
      rw [henh] at he'
      obtain ⟨t, _, rfl⟩ := List.mem_map.mp he'
      simp only at hnone ⊢
      rw [hnone]

/-- Witness for `C9_sort_spec`: one prioritized entry (id 10, score 50) and
an input of two tasks; the enhanced output puts the scored task first, is a
permutation of the input, is non-increasing in score, and the unknown task
carries score 0. -/
theorem C9_sort_spec_witness :
    (([⟨⟨10, "b"⟩, 50, none⟩, ⟨⟨1, "a"⟩, 0, none⟩] : List EnhancedTask).map
        EnhancedTask.base).Perm [⟨1, "a"⟩, ⟨10, "b"⟩] ∧
    ([⟨⟨10, "b"⟩, 50, none⟩, ⟨⟨1, "a"⟩, 0, none⟩] : List EnhancedTask).Pairwise
      (fun u v => v.aiPriorityScore ≤ u.aiPriorityScore) ∧
    (∀ e ∈ ([⟨⟨10, "b"⟩, 50, none⟩, ⟨⟨1, "a"⟩, 0, none⟩] : List EnhancedTask),
      priorityLookup [⟨10, 50, none⟩] e.base.id = none → e.aiPriorityScore = 0) :=
  C9_sort_spec.2.2.2.2 true [⟨10, 50, none⟩] [⟨1, "a"⟩, ⟨10, "b"⟩]
    [⟨⟨10, "b"⟩, 50, none⟩, ⟨⟨1, "a"⟩, 0, none⟩] (by decide)

/-- C10: `generateLocalSchedulingSuggestions` never consults the requested
window: any two window arguments give identical results; and at
`now` = 2024-01-01 Mon 10:00 UTC with the window covering only that Monday,
the suggested start for a `low`-priority task (Thu 10:00) lies strictly
after the window's end. -/
theorem C10_window_independent :
    (∀ (t : Task) (sd1 ed1 sd2 ed2 : Option Int) (now : Int),
      generateLocalSchedulingSuggestions t sd1 ed1 now =
        generateLocalSchedulingSuggestions t sd2 ed2 now) ∧
    1704153599999 <
      (generateLocalSchedulingSuggestions ⟨1, "t1", "low", none, none⟩
        (some 1704067200000) (some 1704153599999) 1704103200000).suggested_start_time := by
  constructor
  · intro t sd1 ed1 sd2 ed2 now
    rfl
  · decide

end Winner
